import Mathlib

/-!
Verification of the nutrition-dashboard core (`main7.py`): the dataset
loader, the radar-chart builder, the scatter-overview builder, the
top-performers builder and the percentile-bucket classifier, shallowly
embedded over `List` and `ℚ`.
-/

namespace Dashboard

/-- A loaded dataset row: the `Food Name` column plus the four nutrient
columns of the CSV, all present (rows with a missing value never reach
this type). -/
structure Row where
  name : String
  prot_g : ℚ
  tot_fat_g : ℚ
  tot_fib_g : ℚ
  carb_g : ℚ
deriving DecidableEq, Repr

/-- A raw CSV row before `dropna`: each cell may be missing (`none`
models NaN). -/
structure RawRow where
  name : Option String
  prot_g : Option ℚ
  tot_fat_g : Option ℚ
  tot_fib_g : Option ℚ
  carb_g : Option ℚ
deriving DecidableEq, Repr

/-- Holds iff no cell of the raw row is missing; `df.dropna()` keeps
exactly these rows. -/
def rawComplete (raw : RawRow) : Bool :=
  raw.name.isSome && raw.prot_g.isSome && raw.tot_fat_g.isSome &&
    raw.tot_fib_g.isSome && raw.carb_g.isSome

/-- Converts a raw row to a dataset row when every cell is present. -/
def toRecord (raw : RawRow) : Option Row :=
  match raw.name, raw.prot_g, raw.tot_fat_g, raw.tot_fib_g, raw.carb_g with
  | some n, some p, some f, some fb, some c =>
      some { name := n, prot_g := p, tot_fat_g := f, tot_fib_g := fb, carb_g := c }
  | _, _, _, _, _ => none

/-- The row-level content of `load_data`: `df.dropna()` keeps the rows
with no missing cell, in order. -/
def load_rows (input : List RawRow) : List Row :=
  input.filterMap toRecord

/-- The condition of the input file seen by `pd.read_csv`: absent,
present but not parseable as CSV, or parseable into raw rows. -/
inductive Source where
  | missing
  | unreadable
  | ok (rows : List RawRow)
deriving DecidableEq

/-- Outcome of `load_data`: a dataset, the caught-error path
(`st.error` then `return None`), or an exception escaping the function. -/
inductive LoadOutcome where
  | data (rows : List Row)
  | loadError
  | uncaught
deriving DecidableEq

/-- Models `load_data`: `pd.read_csv` raises `FileNotFoundError` on a
missing file, which the `except FileNotFoundError` clause catches
(user-visible error, `None` returned); an unreadable format raises a
parse/decode error that this clause does not catch, so the exception
escapes; otherwise the parsed rows pass through `dropna`. -/
def load_data : Source → LoadOutcome
  | Source.missing => LoadOutcome.loadError
  | Source.unreadable => LoadOutcome.uncaught
  | Source.ok rows => LoadOutcome.data (load_rows rows)

/-- Models the guard in `main`: charts are rendered only when
`load_data` returned a dataframe (`if df is None: return`). -/
def main_renders (s : Source) : Bool :=
  match load_data s with
  | LoadOutcome.data _ => true
  | _ => false

/-- The four nutrient columns in the fixed order used by every builder:
`prot_g`, `tot_fat_g`, `tot_fib_g`, `carb_g`. -/
def nutrientValues (r : Row) : List ℚ :=
  [r.prot_g, r.tot_fat_g, r.tot_fib_g, r.carb_g]

/-- Maximum of a list of rationals; the `[]` case is never reached by
the embedded code (every call site guards against an empty frame, where
pandas would yield NaN). -/
def qmax : List ℚ → ℚ
  | [] => 0
  | [a] => a
  | a :: b :: rest => max a (qmax (b :: rest))

/-- The axis labels of the radar chart, in nutrient order. -/
def radarLabels : List String :=
  ["Protein (g)", "Fat (g)", "Fiber (g)", "Carbs (g)"]

/-- One `Scatterpolar` trace of the radar chart: its radial values, its
angular labels and its legend name. -/
structure PolarTrace where
  r : List ℚ
  theta : List String
  name : String
deriving DecidableEq, Repr

/-- The radar figure: its polygon traces, and the upper end of the
radial-axis range when `update_layout` has set one (`go.Figure()` from
the empty-selection early return has none). -/
structure RadarFigure where
  traces : List PolarTrace
  radialRange : Option ℚ
deriving DecidableEq, Repr

/-- The legend label of `create_radar_chart`:
`food if len(food) <= 20 else food[:17] + "..."`. -/
def radarDisplayName (food : String) : String :=
  if food.length ≤ 20 then food else food.take 17 ++ "..."

/-- The `chart_max` computation of `create_radar_chart`: per-nutrient
maxima over the rows whose name is in the selection, overall maximum
times 1.3, floored at 10; 50 when no selected row exists. -/
def radarChartMax (selected_foods : List String) (df : List Row) : ℚ :=
  let selectedData := df.filter (fun r => selected_foods.contains r.name)
  if selectedData.isEmpty then 50
  else
    let maxValues := [qmax (selectedData.map Row.prot_g),
                      qmax (selectedData.map Row.tot_fat_g),
                      qmax (selectedData.map Row.tot_fib_g),
                      qmax (selectedData.map Row.carb_g)]
    max (qmax maxValues * (13 / 10)) 10

/-- The trace loop of `create_radar_chart`: one trace per selected food
whose name matches a row, built from the first matching row
(`food_data.iloc[0]`). -/
def radarTraces (selected_foods : List String) (df : List Row) : List PolarTrace :=
  selected_foods.filterMap (fun food =>
    (df.find? (fun r => r.name == food)).map (fun row =>
      { r := nutrientValues row, theta := radarLabels,
        name := radarDisplayName food }))

/-- `create_radar_chart`: empty selection returns the bare `go.Figure()`;
otherwise the traces from the loop and the radial range from
`chart_max`. -/
def create_radar_chart (selected_foods : List String) (df : List Row) : RadarFigure :=
  if selected_foods.isEmpty then { traces := [], radialRange := none }
  else
    { traces := radarTraces selected_foods df,
      radialRange := some (radarChartMax selected_foods df) }

/-- The single `Scatter` trace of `create_scatter_overview`: protein on
x, fiber on y, carbs as marker colour, food name as hover text. -/
structure ScatterTrace where
  x : List ℚ
  y : List ℚ
  markerColor : List ℚ
  text : List String
deriving DecidableEq, Repr

/-- `create_scatter_overview`: the whole dataframe, column by column,
with no filtering or reordering. -/
def create_scatter_overview (df : List Row) : ScatterTrace :=
  { x := df.map Row.prot_g
    y := df.map Row.tot_fib_g
    markerColor := df.map Row.carb_g
    text := df.map Row.name }

/-- The nutrient selector options of the top-performers chart. -/
inductive NutrientKind where
  | Protein
  | Fat
  | Fiber
  | Carbs
deriving DecidableEq, Repr

/-- The `nutrient_map` dict: selector option to dataframe column. -/
def nutrient_map : NutrientKind → Row → ℚ
  | NutrientKind.Protein => Row.prot_g
  | NutrientKind.Fat => Row.tot_fat_g
  | NutrientKind.Fiber => Row.tot_fib_g
  | NutrientKind.Carbs => Row.carb_g

/-- `df.nlargest(n, col)`: the `n` rows with the largest values of the
column, in descending column order; ties keep the earlier row
(pandas default `keep="first"`), modelled by a stable sort. -/
def nlargest (n : ℕ) (key : Row → ℚ) (df : List Row) : List Row :=
  (df.insertionSort (fun a b => key b ≤ key a)).take n

/-- The `Display_Name` column of the top-performers chart:
`x[:25] + "..." if len(x) > 25 else x`. -/
def displayName (x : String) : String :=
  if x.length > 25 then x.take 25 ++ "..." else x

/-- The bar trace of the top-performers chart: the selected rows in
trace order, their display names and bar lengths, and the y-axis
`categoryorder` setting from `update_layout`. -/
structure BarChart where
  records : List Row
  displayNames : List String
  values : List ℚ
  categoryOrder : String
deriving DecidableEq, Repr

/-- `create_enhanced_top_performers`: the top 15 rows for the selected
nutrient, truncated display names, horizontal bars, and
`categoryorder="total ascending"` on the y axis. -/
def create_enhanced_top_performers (df : List Row) (selected_nutrient : NutrientKind) :
    BarChart :=
  let top_performers := nlargest 15 (nutrient_map selected_nutrient) df
  { records := top_performers
    displayNames := top_performers.map (fun r => displayName r.name)
    values := top_performers.map (nutrient_map selected_nutrient)
    categoryOrder := "total ascending" }

/-- Modelled from the charting library (out of scope of the source):
with `categoryorder` set to `"total ascending"`, a single-trace
horizontal bar chart displays its category rows sorted ascending by
bar value; otherwise in trace order. -/
def displaySeries (c : BarChart) (key : Row → ℚ) : List Row :=
  if c.categoryOrder = "total ascending" then
    c.records.insertionSort (fun a b => key a ≤ key b)
  else c.records

/-- The percentile cut-points computed for one nutrient column by
`df[col].quantile([0.25, 0.5, 0.75, 0.9, 0.95])`. -/
structure Percentiles where
  p25 : ℚ
  p50 : ℚ
  p75 : ℚ
  p90 : ℚ
  p95 : ℚ
deriving DecidableEq, Repr

/-- Pandas `Series.quantile` with the default linear interpolation:
sort the values, take `h = (n - 1) * q`, and interpolate between the
values at positions `⌊h⌋` and `⌈h⌉`. The `[]` case (NaN in pandas) is
unreachable for a non-empty dataframe. -/
def quantile (vals : List ℚ) (q : ℚ) : ℚ :=
  let s := vals.insertionSort (fun a b => a ≤ b)
  match s with
  | [] => 0
  | _ :: _ =>
    let n := s.length
    let h : ℚ := ((n : ℚ) - 1) * q
    let lo := (⌊h⌋).toNat
    let hi := (⌈h⌉).toNat
    s.getD lo 0 + (h - (lo : ℚ)) * (s.getD hi 0 - s.getD lo 0)

/-- The `percentiles[nutrient]` dict entry for one column of values. -/
def percentilesOf (vals : List ℚ) : Percentiles :=
  { p25 := quantile vals (1 / 4)
    p50 := quantile vals (1 / 2)
    p75 := quantile vals (3 / 4)
    p90 := quantile vals (9 / 10)
    p95 := quantile vals (19 / 20) }

/-- `get_nutrient_level`: the percentile-bucket cascade, evaluated top
down with inclusive thresholds. -/
def get_nutrient_level (p : Percentiles) (value : ℚ) : String :=
  if value ≥ p.p95 then "Top 5%"
  else if value ≥ p.p90 then "Top 10%"
  else if value ≥ p.p75 then "High"
  else if value ≥ p.p50 then "Above Average"
  else if value ≥ p.p25 then "Average"
  else "Below Average"

/-- The flattened nutrient values of the rows matching a selection,
over which C4 states the radar maximum. -/
def selectedValues (selected_foods : List String) (df : List Row) : List ℚ :=
  ((df.filter (fun r => selected_foods.contains r.name)).map nutrientValues).flatten

/-- Holds iff every present nutrient cell of a raw row is
non-negative (a missing cell imposes no condition). -/
def rawNonNeg (raw : RawRow) : Bool :=
  decide (0 ≤ raw.prot_g.getD 0) && decide (0 ≤ raw.tot_fat_g.getD 0) &&
    decide (0 ≤ raw.tot_fib_g.getD 0) && decide (0 ≤ raw.carb_g.getD 0)

/-- The loaded row carries exactly the cells of the raw row. -/
def rawMatches (raw : RawRow) (r : Row) : Prop :=
  raw.name = some r.name ∧ raw.prot_g = some r.prot_g ∧
    raw.tot_fat_g = some r.tot_fat_g ∧ raw.tot_fib_g = some r.tot_fib_g ∧
    raw.carb_g = some r.carb_g

/-! ### Helper lemmas -/

theorem qmax_mem : ∀ l : List ℚ, l ≠ [] → qmax l ∈ l
  | [a], _ => by simp [qmax]
  | a :: b :: rest, _ => by
    rw [qmax]
    rcases max_choice a (qmax (b :: rest)) with h | h <;> rw [h]
    · exact List.mem_cons_self a _
    · exact List.mem_cons_of_mem _ (qmax_mem (b :: rest) (by simp))

theorem le_qmax : ∀ l : List ℚ, ∀ x ∈ l, x ≤ qmax l
  | [a], x, hx => by
    simp only [List.mem_singleton] at hx
    simp [qmax, hx]
  | a :: b :: rest, x, hx => by
    rw [qmax]
    rcases List.mem_cons.mp hx with rfl | hx
    · exact le_max_left _ _
    · exact le_trans (le_qmax (b :: rest) x hx) (le_max_right _ _)

theorem mem_selected_flatten {rows : List Row} {r : Row} (hr : r ∈ rows) {x : ℚ}
    (hx : x ∈ nutrientValues r) : x ∈ (rows.map nutrientValues).flatten :=
  List.mem_flatten.mpr ⟨nutrientValues r, List.mem_map_of_mem _ hr, hx⟩

theorem qmax_columns_eq_qmax_flatten (rows : List Row) (hne : rows ≠ []) :
    qmax [qmax (rows.map Row.prot_g), qmax (rows.map Row.tot_fat_g),
          qmax (rows.map Row.tot_fib_g), qmax (rows.map Row.carb_g)]
      = qmax ((rows.map nutrientValues).flatten) := by
  have key : ∀ f : Row → ℚ, (∀ r : Row, f r ∈ nutrientValues r) →
      qmax (rows.map f) ≤ qmax ((rows.map nutrientValues).flatten) := by
    intro f hf
    have hmem := qmax_mem (rows.map f) (by simpa using hne)
    rcases List.mem_map.mp hmem with ⟨r, hr, heq⟩
    rw [← heq]
    exact le_qmax _ _ (mem_selected_flatten hr (hf r))
  apply le_antisymm
  · have h4 := qmax_mem [qmax (rows.map Row.prot_g), qmax (rows.map Row.tot_fat_g),
      qmax (rows.map Row.tot_fib_g), qmax (rows.map Row.carb_g)] (by simp)
    simp only [List.mem_cons, List.not_mem_nil, or_false] at h4
    rcases h4 with h | h | h | h <;> rw [h]
    · exact key Row.prot_g (fun r => by simp [nutrientValues])
    · exact key Row.tot_fat_g (fun r => by simp [nutrientValues])
    · exact key Row.tot_fib_g (fun r => by simp [nutrientValues])
    · exact key Row.carb_g (fun r => by simp [nutrientValues])
  · have hne2 : (rows.map nutrientValues).flatten ≠ [] := by
      rcases rows with _ | ⟨r, rest⟩
      · exact absurd rfl hne
      · simp [nutrientValues]
    have hmem := qmax_mem _ hne2
    rcases List.mem_flatten.mp hmem with ⟨l, hl, hx⟩
    rcases List.mem_map.mp hl with ⟨r, hr, rfl⟩
    simp only [nutrientValues, List.mem_cons, List.not_mem_nil, or_false] at hx
    rcases hx with h | h | h | h <;> rw [h] <;>
      refine le_trans (le_qmax _ _ (List.mem_map_of_mem _ hr)) (le_qmax _ _ (by simp))

theorem get_nutrient_level_spec (p : Percentiles) (v : ℚ) :
    (get_nutrient_level p v = "Top 5%" ↔ p.p95 ≤ v) ∧
    (get_nutrient_level p v = "Top 10%" ↔ (p.p90 ≤ v ∧ ¬ p.p95 ≤ v)) ∧
    (get_nutrient_level p v = "High" ↔ (p.p75 ≤ v ∧ ¬ p.p90 ≤ v ∧ ¬ p.p95 ≤ v)) ∧
    (get_nutrient_level p v = "Above Average" ↔
      (p.p50 ≤ v ∧ ¬ p.p75 ≤ v ∧ ¬ p.p90 ≤ v ∧ ¬ p.p95 ≤ v)) ∧
    (get_nutrient_level p v = "Average" ↔
      (p.p25 ≤ v ∧ ¬ p.p50 ≤ v ∧ ¬ p.p75 ≤ v ∧ ¬ p.p90 ≤ v ∧ ¬ p.p95 ≤ v)) ∧
    (get_nutrient_level p v = "Below Average" ↔
      (¬ p.p25 ≤ v ∧ ¬ p.p50 ≤ v ∧ ¬ p.p75 ≤ v ∧ ¬ p.p90 ≤ v ∧ ¬ p.p95 ≤ v)) := by
  unfold get_nutrient_level
  split_ifs with h1 h2 h3 h4 h5 <;> simp_all [ge_iff_le]

/-! ### Claims -/

/-- C1: for every dataset column and every value `v`, the
percentile-bucket classifier `get_nutrient_level` over the percentile
table of that column assigns `v` the first matching bucket of the
ordered cascade (p95 "Top 5%", p90 "Top 10%", p75 "High", p50
"Above Average", p25 "Average", else "Below Average"), all thresholds
inclusive; in particular a value equal to the 95th percentile is
classified "Top 5%". -/
theorem c1_percentile_bucket_first_match (vals : List ℚ) (v : ℚ) :
    (get_nutrient_level (percentilesOf vals) v = "Top 5%" ↔
      (percentilesOf vals).p95 ≤ v) ∧
    (get_nutrient_level (percentilesOf vals) v = "Top 10%" ↔
      ((percentilesOf vals).p90 ≤ v ∧ ¬ (percentilesOf vals).p95 ≤ v)) ∧
    (get_nutrient_level (percentilesOf vals) v = "High" ↔
      ((percentilesOf vals).p75 ≤ v ∧ ¬ (percentilesOf vals).p90 ≤ v ∧
        ¬ (percentilesOf vals).p95 ≤ v)) ∧
    (get_nutrient_level (percentilesOf vals) v = "Above Average" ↔
      ((percentilesOf vals).p50 ≤ v ∧ ¬ (percentilesOf vals).p75 ≤ v ∧
        ¬ (percentilesOf vals).p90 ≤ v ∧ ¬ (percentilesOf vals).p95 ≤ v)) ∧
    (get_nutrient_level (percentilesOf vals) v = "Average" ↔
      ((percentilesOf vals).p25 ≤ v ∧ ¬ (percentilesOf vals).p50 ≤ v ∧
        ¬ (percentilesOf vals).p75 ≤ v ∧ ¬ (percentilesOf vals).p90 ≤ v ∧
        ¬ (percentilesOf vals).p95 ≤ v)) ∧
    (get_nutrient_level (percentilesOf vals) v = "Below Average" ↔
      (¬ (percentilesOf vals).p25 ≤ v ∧ ¬ (percentilesOf vals).p50 ≤ v ∧
        ¬ (percentilesOf vals).p75 ≤ v ∧ ¬ (percentilesOf vals).p90 ≤ v ∧
        ¬ (percentilesOf vals).p95 ≤ v)) ∧
    get_nutrient_level (percentilesOf vals) ((percentilesOf vals).p95) = "Top 5%" := by
  have h := get_nutrient_level_spec (percentilesOf vals) v
  refine ⟨h.1, h.2.1, h.2.2.1, h.2.2.2.1, h.2.2.2.2.1, h.2.2.2.2.2, ?_⟩
  exact (get_nutrient_level_spec (percentilesOf vals)
    ((percentilesOf vals).p95)).1.mpr le_rfl

/-- C8 counterexample: an input file that exists but is unreadable does
not produce the LoadError path — the parse exception escapes
`load_data` uncaught, so no user-visible LoadError message replaces the
Dataset. -/
theorem c8_counterexample_unreadable :
    load_data Source.unreadable = LoadOutcome.uncaught ∧
    LoadOutcome.uncaught ≠ LoadOutcome.loadError :=
  ⟨rfl, by simp⟩

/-- C8 amended: `load_data` produces the LoadError path (user-visible
message, `None` returned) exactly when the input file is missing, and
on a missing file the application renders nothing further; an
unreadable format instead raises an exception that the loader does not
catch. -/
theorem c8_load_error_exactly_missing (s : Source) :
    (load_data s = LoadOutcome.loadError ↔ s = Source.missing) ∧
    (load_data s = LoadOutcome.uncaught ↔ s = Source.unreadable) ∧
    main_renders Source.missing = false := by
  refine ⟨?_, ?_, rfl⟩ <;> cases s <;> simp [load_data]

/-- C9: the scatter overview emits exactly one point per dataset
record: each per-point column has the dataset's length and the i-th
point carries exactly the i-th record's protein, fiber, carb and name
values. -/
theorem c9_scatter_one_point_per_record (df : List Row) :
    (create_scatter_overview df).x.length = df.length ∧
    (create_scatter_overview df).y.length = df.length ∧
    (create_scatter_overview df).markerColor.length = df.length ∧
    (create_scatter_overview df).text.length = df.length ∧
    ∀ i : Fin df.length,
      (create_scatter_overview df).x[(i : ℕ)]? = some (df.get i).prot_g ∧
      (create_scatter_overview df).y[(i : ℕ)]? = some (df.get i).tot_fib_g ∧
      (create_scatter_overview df).markerColor[(i : ℕ)]? = some (df.get i).carb_g ∧
      (create_scatter_overview df).text[(i : ℕ)]? = some (df.get i).name := by
  refine ⟨by simp [create_scatter_overview], by simp [create_scatter_overview],
    by simp [create_scatter_overview], by simp [create_scatter_overview],
    fun i => ?_⟩
  have hi : df[(i : ℕ)]? = some (df.get i) := by
    rw [List.getElem?_eq_getElem i.isLt]
    simp
  refine ⟨?_, ?_, ?_, ?_⟩ <;> simp [create_scatter_overview, List.getElem?_map, hi]

theorem create_radar_chart_traces (selected : List String) (df : List Row) :
    (create_radar_chart selected df).traces = radarTraces selected df := by
  cases selected <;> simp [create_radar_chart, radarTraces]

theorem radarTraces_forall₂ (df : List Row) :
    ∀ selected : List String, (∀ f ∈ selected, ∃ r ∈ df, r.name = f) →
      List.Forall₂ (fun (food : String) (t : PolarTrace) =>
          t.r.length = 4 ∧ t.theta = radarLabels ∧
          ∃ row, df.find? (fun x => x.name == food) = some row ∧
            t.r = [row.prot_g, row.tot_fat_g, row.tot_fib_g, row.carb_g])
        selected (radarTraces selected df)
  | [], _ => by simp [radarTraces]
  | food :: rest, hocc => by
    obtain ⟨r, hr, hname⟩ := hocc food (List.mem_cons_self _ _)
    have hsome : (df.find? (fun x => x.name == food)).isSome := by
      rw [List.find?_isSome]
      exact ⟨r, hr, by simp [hname]⟩
    obtain ⟨row, hrow⟩ := Option.isSome_iff_exists.mp hsome
    rw [radarTraces, List.filterMap_cons, hrow]
    refine List.Forall₂.cons ⟨by simp [nutrientValues], rfl, row, hrow, rfl⟩ ?_
    exact radarTraces_forall₂ df rest (fun f hf => hocc f (List.mem_cons_of_mem _ hf))

/-- C3: for every selection of at most 5 names all occurring in the
dataset, the radar builder returns exactly one polygon trace per
selected food, each trace holding exactly the 4 values protein, fat,
fiber, carbs of the first dataset row with that name; the empty
selection yields the empty figure with no polygons. -/
theorem c3_radar_polygon_per_selected (selected : List String) (df : List Row)
    (_hcard : selected.length ≤ 5)
    (hocc : ∀ f ∈ selected, ∃ r ∈ df, r.name = f) :
    (create_radar_chart selected df).traces.length = selected.length ∧
    List.Forall₂ (fun (food : String) (t : PolarTrace) =>
        t.r.length = 4 ∧ t.theta = radarLabels ∧
        ∃ row, df.find? (fun x => x.name == food) = some row ∧
          t.r = [row.prot_g, row.tot_fat_g, row.tot_fib_g, row.carb_g])
      selected (create_radar_chart selected df).traces ∧
    create_radar_chart [] df = { traces := [], radialRange := none } := by
  have h2 := radarTraces_forall₂ df selected hocc
  have htr := create_radar_chart_traces selected df
  refine ⟨?_, ?_, by simp [create_radar_chart]⟩
  · rw [htr]
    exact h2.length_eq.symm
  · rw [htr]
    exact h2

/-- C3 witness at a concrete two-food dataset and selection. -/
theorem c3_radar_polygon_per_selected_witness :
    (["Spinach", "Lentils"] : List String).length ≤ 5 ∧
    (∀ f ∈ (["Spinach", "Lentils"] : List String),
      ∃ r ∈ [Row.mk "Spinach" 3 1 2 4, Row.mk "Lentils" 9 1 8 20], r.name = f) ∧
    ((create_radar_chart ["Spinach", "Lentils"]
        [Row.mk "Spinach" 3 1 2 4, Row.mk "Lentils" 9 1 8 20]).traces.length = 2 ∧
      List.Forall₂ (fun (food : String) (t : PolarTrace) =>
          t.r.length = 4 ∧ t.theta = radarLabels ∧
          ∃ row, ([Row.mk "Spinach" 3 1 2 4, Row.mk "Lentils" 9 1 8 20].find?
              (fun x => x.name == food)) = some row ∧
            t.r = [row.prot_g, row.tot_fat_g, row.tot_fib_g, row.carb_g])
        ["Spinach", "Lentils"]
        (create_radar_chart ["Spinach", "Lentils"]
          [Row.mk "Spinach" 3 1 2 4, Row.mk "Lentils" 9 1 8 20]).traces ∧
      create_radar_chart [] [Row.mk "Spinach" 3 1 2 4, Row.mk "Lentils" 9 1 8 20]
        = { traces := [], radialRange := none }) :=
  ⟨by decide, by decide,
    c3_radar_polygon_per_selected ["Spinach", "Lentils"]
      [Row.mk "Spinach" 3 1 2 4, Row.mk "Lentils" 9 1 8 20] (by decide) (by decide)⟩

/-- C10: for a non-empty selection none of whose names occurs in the
dataset, the radar builder returns a figure with zero polygon traces
and the fallback radial axis maximum 50, rather than failing. -/
theorem c10_radar_unknown_selection (selected : List String) (df : List Row)
    (hne : selected ≠ [])
    (hmiss : ∀ f ∈ selected, ∀ r ∈ df, r.name ≠ f) :
    (create_radar_chart selected df).traces = [] ∧
    (create_radar_chart selected df).radialRange = some 50 := by
  have hfilter : df.filter (fun r => selected.contains r.name) = [] := by
    rw [List.filter_eq_nil_iff]
    intro r hrdf hc
    simp only [List.contains_iff_exists_mem_beq] at hc
    obtain ⟨f, hf, hbeq⟩ := hc
    exact hmiss f hf r hrdf (by simpa using hbeq)
  constructor
  · rw [create_radar_chart_traces, radarTraces, List.filterMap_eq_nil_iff]
    intro food hfood
    have hfind : df.find? (fun x => x.name == food) = none := by
      rw [List.find?_eq_none]
      intro r hrdf
      simp only [beq_iff_eq]
      exact hmiss food hfood r hrdf
    rw [hfind]
    rfl
  · rcases selected with _ | ⟨f, rest⟩
    · exact absurd rfl hne
    · rw [create_radar_chart]
      simp only [List.isEmpty_cons, Bool.false_eq_true, if_false]
      rw [radarChartMax]
      simp only [hfilter, List.isEmpty_nil, if_true]

/-- C10 witness at a concrete selection disjoint from the dataset. -/
theorem c10_radar_unknown_selection_witness :
    (["Zzz"] : List String) ≠ [] ∧
    (∀ f ∈ (["Zzz"] : List String), ∀ r ∈ [Row.mk "Aaa" 1 2 3 4], r.name ≠ f) ∧
    ((create_radar_chart ["Zzz"] [Row.mk "Aaa" 1 2 3 4]).traces = [] ∧
      (create_radar_chart ["Zzz"] [Row.mk "Aaa" 1 2 3 4]).radialRange = some 50) :=
  ⟨by decide, by decide,
    c10_radar_unknown_selection ["Zzz"] [Row.mk "Aaa" 1 2 3 4] (by decide) (by decide)⟩

/-- C4: for every non-empty selection all of whose names occur in the
dataset, the radial axis maximum equals max(1.3 * m, 10) where m is the
maximum nutrient value among the rows matching the selection across all
four nutrients; hence it is at least 10, and equals 1.3 * m whenever
1.3 * m exceeds 10. -/
theorem c4_radar_axis_max (selected : List String) (df : List Row)
    (hne : selected ≠ [])
    (hocc : ∀ f ∈ selected, ∃ r ∈ df, r.name = f) :
    (create_radar_chart selected df).radialRange
        = some (max ((13 / 10) * qmax (selectedValues selected df)) 10) ∧
    10 ≤ max ((13 / 10) * qmax (selectedValues selected df)) 10 ∧
    (10 < (13 / 10) * qmax (selectedValues selected df) →
      max ((13 / 10) * qmax (selectedValues selected df)) 10
        = (13 / 10) * qmax (selectedValues selected df)) := by
  refine ⟨?_, le_max_right _ _, fun h => max_eq_left (le_of_lt h)⟩
  rcases selected with _ | ⟨f, rest⟩
  · exact absurd rfl hne
  obtain ⟨r, hr, hname⟩ := hocc f (List.mem_cons_self _ _)
  have hrsel : r ∈ df.filter (fun x => (f :: rest).contains x.name) := by
    rw [List.mem_filter]
    exact ⟨hr, by simp [hname]⟩
  have hsel_ne : df.filter (fun x => (f :: rest).contains x.name) ≠ [] :=
    List.ne_nil_of_mem hrsel
  rw [create_radar_chart]
  simp only [List.isEmpty_cons, Bool.false_eq_true, if_false]
  rw [radarChartMax]
  simp only [List.isEmpty_iff, if_neg hsel_ne]
  rw [qmax_columns_eq_qmax_flatten _ hsel_ne, mul_comm]
  rfl

/-- C4 witness at the spec's two-food example dataset. -/
theorem c4_radar_axis_max_witness :
    (["Spinach", "Lentils"] : List String) ≠ [] ∧
    (∀ f ∈ (["Spinach", "Lentils"] : List String),
      ∃ r ∈ [Row.mk "Spinach" 3 1 2 4, Row.mk "Lentils" 9 1 8 20], r.name = f) ∧
    (create_radar_chart ["Spinach", "Lentils"]
        [Row.mk "Spinach" 3 1 2 4, Row.mk "Lentils" 9 1 8 20]).radialRange
      = some (max ((13 / 10) * qmax (selectedValues ["Spinach", "Lentils"]
          [Row.mk "Spinach" 3 1 2 4, Row.mk "Lentils" 9 1 8 20])) 10) :=
  ⟨by decide, by decide,
    (c4_radar_axis_max ["Spinach", "Lentils"]
      [Row.mk "Spinach" 3 1 2 4, Row.mk "Lentils" 9 1 8 20]
      (by decide) (by decide)).1⟩

/-- C2: for every dataset and nutrient, the top-performers chart
displays exactly 15 bars (or |Dataset| bars if the dataset is smaller),
sorted ascending by the selected nutrient, and the displayed rows are
the foods with the largest values of that nutrient: the remaining rows
of the dataset all have values no larger than any displayed row. -/
theorem c2_top_performers_top15_ascending (df : List Row) (nutrient : NutrientKind) :
    (displaySeries (create_enhanced_top_performers df nutrient)
        (nutrient_map nutrient)).length = min 15 df.length ∧
    List.Sorted (fun a b => nutrient_map nutrient a ≤ nutrient_map nutrient b)
      (displaySeries (create_enhanced_top_performers df nutrient)
        (nutrient_map nutrient)) ∧
    ∃ rest : List Row,
      df.Perm (displaySeries (create_enhanced_top_performers df nutrient)
          (nutrient_map nutrient) ++ rest) ∧
      ∀ r ∈ displaySeries (create_enhanced_top_performers df nutrient)
          (nutrient_map nutrient),
        ∀ s ∈ rest, nutrient_map nutrient s ≤ nutrient_map nutrient r := by
  haveI : IsTotal Row (fun a b => nutrient_map nutrient a ≤ nutrient_map nutrient b) :=
    ⟨fun a b => le_total _ _⟩
  haveI : IsTrans Row (fun a b => nutrient_map nutrient a ≤ nutrient_map nutrient b) :=
    ⟨fun _ _ _ hab hbc => le_trans hab hbc⟩
  haveI : IsTotal Row (fun a b => nutrient_map nutrient b ≤ nutrient_map nutrient a) :=
    ⟨fun a b => le_total _ _⟩
  haveI : IsTrans Row (fun a b => nutrient_map nutrient b ≤ nutrient_map nutrient a) :=
    ⟨fun _ _ _ hab hbc => le_trans hbc hab⟩
  have hds : displaySeries (create_enhanced_top_performers df nutrient)
        (nutrient_map nutrient)
      = (nlargest 15 (nutrient_map nutrient) df).insertionSort
          (fun a b => nutrient_map nutrient a ≤ nutrient_map nutrient b) := by
    simp [displaySeries, create_enhanced_top_performers]
  refine ⟨?_, ?_, ?_⟩
  · rw [hds, List.length_insertionSort, nlargest, List.length_take,
      List.length_insertionSort]
  · rw [hds]
    exact List.sorted_insertionSort _ _
  · refine ⟨(df.insertionSort
        (fun a b => nutrient_map nutrient b ≤ nutrient_map nutrient a)).drop 15, ?_, ?_⟩
    · rw [hds]
      have h1 := (List.perm_insertionSort
        (fun a b => nutrient_map nutrient b ≤ nutrient_map nutrient a) df).symm
      have h3 := List.perm_insertionSort
        (fun a b => nutrient_map nutrient a ≤ nutrient_map nutrient b)
        (nlargest 15 (nutrient_map nutrient) df)
      have h4 := List.Perm.append_right
        ((df.insertionSort
          (fun a b => nutrient_map nutrient b ≤ nutrient_map nutrient a)).drop 15)
        h3.symm
      refine h1.trans ?_
      have hsplit : df.insertionSort
            (fun a b => nutrient_map nutrient b ≤ nutrient_map nutrient a)
          = nlargest 15 (nutrient_map nutrient) df ++
            (df.insertionSort
              (fun a b => nutrient_map nutrient b ≤ nutrient_map nutrient a)).drop 15 := by
        rw [nlargest]
        exact (List.take_append_drop _ _).symm
      conv_lhs => rw [hsplit]
      exact h4
    · intro r hr s hs
      have hsorted : List.Pairwise
          (fun a b => nutrient_map nutrient b ≤ nutrient_map nutrient a)
          (df.insertionSort
            (fun a b => nutrient_map nutrient b ≤ nutrient_map nutrient a)) :=
        List.sorted_insertionSort _ _
      rw [← List.take_append_drop 15 (df.insertionSort
        (fun a b => nutrient_map nutrient b ≤ nutrient_map nutrient a))] at hsorted
      have hr2 : r ∈ nlargest 15 (nutrient_map nutrient) df := by
        rw [hds] at hr
        exact (List.perm_insertionSort _ _).mem_iff.mp hr
      rw [nlargest] at hr2
      exact (List.pairwise_append.mp hsorted).2.2 r hr2 s hs

theorem displayName_eq (x : String) :
    displayName x = if x.length ≤ 25 then x else x.take 25 ++ "..." := by
  by_cases h : x.length ≤ 25 <;> simp [displayName, h]

theorem forall₂_exists_left {R : RawRow → Row → Prop} :
    ∀ {l₁ : List RawRow} {l₂ : List Row}, List.Forall₂ R l₁ l₂ →
      ∀ b ∈ l₂, ∃ a ∈ l₁, R a b := by
  intro l₁ l₂ h
  induction h with
  | nil => simp
  | cons hab _ ih =>
    intro b hb
    rcases List.mem_cons.mp hb with rfl | hb
    · exact ⟨_, List.mem_cons_self _ _, hab⟩
    · obtain ⟨a, ha, hR⟩ := ih b hb
      exact ⟨a, List.mem_cons_of_mem _ ha, hR⟩

theorem load_rows_forall₂ (input : List RawRow) :
    List.Forall₂ rawMatches (input.filter rawComplete) (load_rows input) := by
  induction input with
  | nil => simp [load_rows]
  | cons raw rest ih =>
    rcases raw with ⟨n, p, f, fb, c⟩
    rcases n with _ | n <;> rcases p with _ | p <;> rcases f with _ | f <;>
      rcases fb with _ | fb <;> rcases c with _ | c <;>
      simp_all [load_rows, toRecord, rawComplete, rawMatches]

set_option maxRecDepth 8192 in
/-- C5 counterexample: the first 25 characters of the 29-character name
"Bottle Gourd Without Skin Raw" end with "Skin", so the chart displays
"Bottle Gourd Without Skin..." and not the claimed
"Bottle Gourd Without Skin R...". -/
theorem c5_counterexample_bottle_gourd :
    (create_enhanced_top_performers
        [Row.mk "Bottle Gourd Without Skin Raw" 1 1 1 1]
        NutrientKind.Protein).displayNames
      = ["Bottle Gourd Without Skin..."] ∧
    ("Bottle Gourd Without Skin..." : String) ≠ "Bottle Gourd Without Skin R..." := by
  constructor
  · decide
  · decide

set_option maxRecDepth 8192 in
/-- C5 amended: every display name of the top-performers chart is the
food name unchanged when it has at most 25 characters and otherwise its
first 25 characters followed by an ellipsis; in particular the
29-character name "Bottle Gourd Without Skin Raw" is displayed as
"Bottle Gourd Without Skin...". -/
theorem c5_display_name_truncation (df : List Row) (nutrient : NutrientKind) :
    (create_enhanced_top_performers df nutrient).displayNames
      = (create_enhanced_top_performers df nutrient).records.map
          (fun r => if r.name.length ≤ 25 then r.name else r.name.take 25 ++ "...") ∧
    displayName "Bottle Gourd Without Skin Raw" = "Bottle Gourd Without Skin..." := by
  constructor
  · simp [create_enhanced_top_performers, displayName_eq]
  · decide

/-- C6 counterexample: dropping rows with missing values does not
enforce non-negativity — a complete input row with a negative protein
value passes through the loader unchanged. -/
theorem c6_counterexample_negative_value :
    load_rows [RawRow.mk (some "Bad") (some (-1)) (some 0) (some 0) (some 0)]
      = [Row.mk "Bad" (-1) 0 0 0] ∧
    (Row.mk "Bad" (-1) 0 0 0).prot_g < 0 := by
  refine ⟨rfl, ?_⟩
  norm_num

/-- C6 amended: the loader drops exactly the rows with a missing value
and does not itself check signs; whenever every present nutrient cell
of the input is non-negative, every loaded record has non-negative
values in all four nutrient fields. -/
theorem c6_loader_nonneg_if_input_nonneg (input : List RawRow)
    (h : ∀ raw ∈ input, rawNonNeg raw = true) :
    ∀ r ∈ load_rows input,
      0 ≤ r.prot_g ∧ 0 ≤ r.tot_fat_g ∧ 0 ≤ r.tot_fib_g ∧ 0 ≤ r.carb_g := by
  intro r hr
  obtain ⟨raw, hrawf, hm⟩ := forall₂_exists_left (load_rows_forall₂ input) r hr
  have hrawin : raw ∈ input := (List.mem_filter.mp hrawf).1
  have hn := h raw hrawin
  rcases hm with ⟨h1, h2, h3, h4, h5⟩
  rw [rawNonNeg, h2, h3, h4, h5] at hn
  simp only [Option.getD_some, Bool.and_eq_true, decide_eq_true_eq] at hn
  exact ⟨hn.1.1.1, hn.1.1.2, hn.1.2, hn.2⟩

/-- C6 witness at a concrete input with one complete and one incomplete
row, all present values non-negative. -/
theorem c6_loader_nonneg_witness :
    (∀ raw ∈ [RawRow.mk (some "Ok") (some 2) (some 3) (some 4) (some 5),
              RawRow.mk none (some 1) none (some 1) (some 1)],
      rawNonNeg raw = true) ∧
    ∀ r ∈ load_rows [RawRow.mk (some "Ok") (some 2) (some 3) (some 4) (some 5),
                     RawRow.mk none (some 1) none (some 1) (some 1)],
      0 ≤ r.prot_g ∧ 0 ≤ r.tot_fat_g ∧ 0 ≤ r.tot_fib_g ∧ 0 ≤ r.carb_g :=
  ⟨by decide,
    c6_loader_nonneg_if_input_nonneg
      [RawRow.mk (some "Ok") (some 2) (some 3) (some 4) (some 5),
       RawRow.mk none (some 1) none (some 1) (some 1)] (by decide)⟩

/-- C7 counterexample: the loader does not deduplicate by name — two
complete input rows sharing the name "Amaranth" both reach the
dataset. -/
theorem c7_counterexample_duplicate_names :
    (load_rows [RawRow.mk (some "Amaranth") (some 1) (some 1) (some 1) (some 1),
                RawRow.mk (some "Amaranth") (some 2) (some 2) (some 2) (some 2)]).map
        Row.name
      = ["Amaranth", "Amaranth"] ∧
    ¬ (["Amaranth", "Amaranth"] : List String).Nodup := by
  refine ⟨rfl, by decide⟩

/-- C7 amended: the dataset produced by the loader contains no record
with a missing nutrient value — its records correspond one-to-one, in
order and cell for cell, to exactly the complete rows of the input, any
row with a missing value being excluded — but names are not
deduplicated. -/
theorem c7_loader_keeps_exactly_complete_rows (input : List RawRow) :
    List.Forall₂ rawMatches (input.filter rawComplete) (load_rows input) :=
  load_rows_forall₂ input

end Dashboard
